import Mathlib

/-!
Shallow embedding of the hospital pricing query engine (`app/nl.py`,
`app/main.py`) for verification of its natural-language specification.

Conventions:
* Python `str` is `String`; regex scanning is modelled character by
  character on `String.toList`, following Python `re` semantics
  (word boundaries, greedy bounded repetition, leftmost match).
* SQL numeric values are `ℚ`; machine floats do not occur in the claims.
* Nullable columns and optional fields are `Option`.
* Fallible Python code is `Except`; external effects (the OpenAI chat
  completion call, pgeocode lookup, database rows) are oracle parameters.
-/

set_option maxRecDepth 10000

namespace Hospital

/-! ## Character classes (Python `re` ASCII semantics) -/

/-- `\d` for ASCII text. -/
def isDigitChar (c : Char) : Bool := '0' ≤ c && c ≤ '9'

/-- `\w` (word character) for ASCII text: letters, digits, underscore. -/
def isWordChar (c : Char) : Bool := c.isAlpha || isDigitChar c || c == '_'

/-- `\s` for ASCII text. -/
def isSpaceChar (c : Char) : Bool :=
  c == ' ' || c == '\t' || c == '\n' || c == '\x0d' || c == '\x0b' || c == '\x0c'

/-- Python `str.lower()` on ASCII text. -/
def pyLower (s : String) : String := String.mk (s.toList.map Char.toLower)

/-- Python `str.strip()` on ASCII text. -/
def pyStrip (s : String) : String :=
  String.mk (((s.toList.dropWhile isSpaceChar).reverse.dropWhile isSpaceChar).reverse)

/-! ## Substring containment (Python `in`, SQL `ILIKE '%pat%'` after lowering) -/

/-- `p` is a leading block of `l`. -/
def prefixChars : List Char → List Char → Bool
  | [], _ => true
  | _ :: _, [] => false
  | a :: as, b :: bs => a == b && prefixChars as bs

/-- `pat` occurs contiguously somewhere in `hay`. -/
def containsChars : List Char → List Char → Bool
  | [], pat => prefixChars pat []
  | c :: rest, pat => prefixChars pat (c :: rest) || containsChars rest pat

/-- Python `sub in s` for strings. -/
def strContains (s sub : String) : Bool := containsChars s.toList sub.toList

theorem prefixChars_iff (p l : List Char) : prefixChars p l = true ↔ p <+: l := by
  induction p generalizing l with
  | nil => simp [prefixChars]
  | cons a as ih =>
    cases l with
    | nil => simp [prefixChars]
    | cons b bs =>
      simp only [prefixChars, Bool.and_eq_true, beq_iff_eq, ih, List.cons_prefix_cons]

theorem containsChars_iff (l p : List Char) : containsChars l p = true ↔ p <:+: l := by
  induction l with
  | nil =>
    simp [containsChars, prefixChars_iff]
  | cons c rest ih =>
    simp only [containsChars, Bool.or_eq_true, prefixChars_iff, ih, List.infix_cons_iff]

theorem strContains_iff (s sub : String) :
    strContains s sub = true ↔ sub.toList <:+: s.toList := containsChars_iff _ _

/-! ## The scope gate (`nl.is_scope_relevant`) -/

/-- The fixed domain vocabulary of `is_scope_relevant`. -/
def scopeKeywords : List String :=
  ["drg", "ms-drg", "hospital", "provider", "rating", "cost", "price",
   "charges", "payment", "near", "zip"]

/-- `nl.is_scope_relevant`: lowercase the question and test each keyword
with Python `in`. -/
def is_scope_relevant (question : String) : Bool :=
  scopeKeywords.any (fun k => strContains (pyLower question) k)

/-! ## Regex scanners for `_fallback_parse`

Each of the four patterns used by `_fallback_parse` has the shape
"word boundary, bounded digit run (and for DRG a literal marker),
optional spaces, literal alternatives, word boundary", searched with
`re.search` (leftmost match).  Because every literal alternative starts
with a letter while the digit run is maximal-bounded, only the greedy
digit run can complete a match, so backtracking inside the run never
succeeds; boundary bookkeeping is threaded as `prevWord` (whether the
previous character was a word character). -/

/-- Numeric value of a digit run (matches Python `int` on the group). -/
def digitsToNat : List Char → Nat
  | [] => 0
  | c :: cs => digitsToNat cs + c.toNat.sub 48 * 10 ^ cs.length

/-- Match one literal alternative at the head of `rest`, then require a
word boundary (`\b`) immediately after it. -/
def litBoundary : List Char → List Char → Bool
  | [], [] => true
  | [], c :: _ => !isWordChar c
  | _ :: _, [] => false
  | u :: us, c :: cs => u == c && litBoundary us cs

/-- Regex alternation of literal units followed by `\b`. -/
def unitAlt (units : List (List Char)) (rest : List Char) : Bool :=
  units.any (fun u => litBoundary u rest)

/-- Search for `\b(\d{1,3})\s*(u1|u2|...)\b` in the character list,
returning the numeric value of the first (leftmost) match.
`prevWord` says whether the previous character is a word character. -/
def scanNumUnit (units : List (List Char)) : Bool → List Char → Option Int
  | _, [] => none
  | prevWord, c :: cs =>
    if !prevWord && isDigitChar c then
      let run := (c :: cs).takeWhile isDigitChar
      let rest := (c :: cs).dropWhile isDigitChar
      if run.length ≤ 3 && unitAlt units (rest.dropWhile isSpaceChar) then
        some (digitsToNat run : Int)
      else scanNumUnit units (isWordChar c) cs
    else scanNumUnit units (isWordChar c) cs

/-- `re.search(r"\b(\d{1,3})\s*(mile|miles|mi)\b", text, re.IGNORECASE)`,
modelled by scanning the lowercased text. -/
def findMiles (text : String) : Option Int :=
  scanNumUnit [String.toList "mile", String.toList "miles", String.toList "mi"]
    false (pyLower text).toList

/-- `re.search(r"\b(\d{1,3})\s*(km|kilometers)\b", text, re.IGNORECASE)`. -/
def findKm (text : String) : Option Int :=
  scanNumUnit [String.toList "km", String.toList "kilometers"]
    false (pyLower text).toList

/-- Search for `\b(\d{n})\b`: a standalone digit run of exact length `n`;
returns the run (as a string) of the first match. -/
def scanExactDigits (n : Nat) : Bool → List Char → Option String
  | _, [] => none
  | prevWord, c :: cs =>
    if !prevWord && isDigitChar c then
      let run := (c :: cs).takeWhile isDigitChar
      let rest := (c :: cs).dropWhile isDigitChar
      if run.length == n && (rest.isEmpty || !isWordChar (rest.headD ' ')) then
        some (String.mk run)
      else scanExactDigits n (isWordChar c) cs
    else scanExactDigits n (isWordChar c) cs

/-- `re.search(r"\b(\d{5})\b", text)`: the first standalone 5-digit token. -/
def findZip (text : String) : Option String := scanExactDigits 5 false text.toList

/-- Search for `\bdrg\s*(\d{3})\b` (case-insensitive, scanned on the
lowercased text): literal `drg` at a word boundary, optional spaces,
then exactly three digits ending at a word boundary. -/
def scanDrg : Bool → List Char → Option String
  | _, [] => none
  | prevWord, c :: cs =>
    if !prevWord && prefixChars (String.toList "drg") (c :: cs) then
      let after := ((c :: cs).drop 3).dropWhile isSpaceChar
      let run := after.takeWhile isDigitChar
      let rest := after.dropWhile isDigitChar
      if run.length == 3 && (rest.isEmpty || !isWordChar (rest.headD ' ')) then
        some (String.mk run)
      else scanDrg (isWordChar c) cs
    else scanDrg (isWordChar c) cs

/-- `re.search(r"\bdrg\s*(\d{3})\b", text, re.IGNORECASE)`, group 1. -/
def findDrg (text : String) : Option String := scanDrg false (pyLower text).toList

/-! ## Structured parameters (`nl.NLParams`) and the fallback parser -/

/-- `nl.NLParams`. -/
structure NLParams where
  intent : String
  drg_query : Option String
  zip_code : Option String
  radius_km : Option Int
  top_k : Int := 3
deriving Repr, DecidableEq

/-- Keyword lists of `_fallback_parse`'s intent classification. -/
def costKeywords : List String := ["cheap", "cheapest", "low cost", "lowest"]

def qualityKeywords : List String := ["best", "top", "highest rating", "rated"]

/-- `any(w in q for w in costKeywords)` on the lowercased question. -/
def hasCostKeyword (question : String) : Bool :=
  costKeywords.any (fun w => strContains (pyLower question) w)

/-- `any(w in q for w in qualityKeywords)` on the lowercased question. -/
def hasQualityKeyword (question : String) : Bool :=
  qualityKeywords.any (fun w => strContains (pyLower question) w)

/-- `nl._fallback_parse`: regex extraction of DRG text, ZIP, radius
(kilometre phrasing overrides the miles phrasing, miles convert by
`int(miles) * 1609 // 1000`), and keyword-precedence intent. -/
def _fallback_parse (question : String) : NLParams :=
  let drg := findDrg question
  let zip_code := findZip question
  let radius_km : Option Int :=
    match findKm question with
    | some k => some k
    | none =>
      match findMiles question with
      | some m => some (m * 1609 / 1000)
      | none => none
  let intent :=
    if hasCostKeyword question then "cheapest"
    else if hasQualityKeyword question then "best_rated"
    else if strContains (pyLower question) "average" then "average_cost"
    else "cheapest"
  { intent := intent, drg_query := drg, zip_code := zip_code,
    radius_km := radius_km, top_k := 3 }

/-! ## The LLM parameter extractor (`nl.extract_params_with_openai`)

The external completion call is an oracle: attempt `n` either raises
(`Except.error ()`, covering network errors, service errors and
`json.loads` failures on the reply) or yields the decoded JSON object.
JSON-level type coercion failures (`int(...)` raising) are folded into
`none` fields of the decoded object. -/

/-- `nl.INTENT_CHOICES`. -/
def INTENT_CHOICES : List String := ["cheapest", "best_rated", "average_cost", "compare_costs"]

/-- The decoded JSON object returned by one successful completion call. -/
structure LLMData where
  intent : Option String
  drg_query : Option String
  zip_code : Option String
  radius_km : Option Int
  top_k : Option Int
deriving Repr, DecidableEq

/-- Python `x or default` for an optional string (None and `""` are falsy). -/
def pyOrStr (x : Option String) (default : String) : String :=
  match x with
  | none => default
  | some s => if s = "" then default else s

/-- Python `x or default` for an optional integer (None and `0` are falsy). -/
def pyOrInt (x : Option Int) (default : Int) : Int :=
  match x with
  | none => default
  | some v => if v = 0 then default else v

/-- Field validation applied to a successfully decoded completion reply
(`nl.extract_params_with_openai`, after `json.loads`): intent is coerced
into `INTENT_CHOICES` with default `cheapest`; the ZIP is kept only if it
matches `^\d{5}$` after stripping; radius defaults to 40 when absent;
the result count defaults to 3 when absent, zero or unparseable. -/
def parseLLMData (d : LLMData) : NLParams :=
  let intent0 := pyLower (pyStrip (pyOrStr d.intent "cheapest"))
  let intent := if INTENT_CHOICES.contains intent0 then intent0 else "cheapest"
  let drg_query := d.drg_query.map pyStrip
  let zip_code :=
    match d.zip_code with
    | none => none
    | some z =>
      let z := pyStrip z
      if z.toList.length == 5 && z.toList.all isDigitChar then some z else none
  let radius_km : Int := match d.radius_km with | none => 40 | some r => r
  let top_k := pyOrInt d.top_k 3
  { intent := intent, drg_query := drg_query, zip_code := zip_code,
    radius_km := some radius_km, top_k := top_k }

/-- Configuration of the completion service: `none` models a missing
`OPENAI_API_KEY` (or a failed `openai` import); `some svc` models a
configured client whose `n`-th call attempt yields `svc n`. -/
def LLMConfig : Type := Option (Nat → Except Unit LLMData)

/-- One decorated call attempt: the service call followed by response
decoding and field validation. -/
def extractAttempt (svc : Nat → Except Unit LLMData) (n : Nat) : Except Unit NLParams :=
  (svc n).map parseLLMData

/-- `nl.extract_params_with_openai` under its `tenacity.retry` decorator
(`stop_after_attempt(3)`): unconfigured service delegates to
`_fallback_parse`; otherwise up to three call attempts are made and the
final failure is re-raised to the caller. -/
def extract_params_with_openai (cfg : LLMConfig) (question : String) : Except Unit NLParams :=
  match cfg with
  | none => .ok (_fallback_parse question)
  | some svc =>
    match extractAttempt svc 0 with
    | .ok p => .ok p
    | .error _ =>
      match extractAttempt svc 1 with
      | .ok p => .ok p
      | .error _ => extractAttempt svc 2

/-! ## Corpus (`app/models.py`) and the SQL queries of `app/main.py`

Monetary columns (`Numeric(14, 2)`) and coordinates are `ℚ`.  The
haversine expression is evaluated by the database; its value is
irrelevant to every claim, so it is an oracle
`dist : lat₁ → lon₁ → lat₂ → lon₂ → ℚ` passed to each query. -/

/-- `models.Provider` (columns read by the engine). -/
structure Provider where
  provider_id : String
  name : String
  city : Option String
  state : Option String
  zip_code : Option String
  latitude : Option ℚ
  longitude : Option ℚ
deriving Repr, DecidableEq

/-- `models.Procedure` (columns read by the engine). -/
structure Procedure where
  provider_id : String
  ms_drg_definition : String
  average_covered_charges : Option ℚ
  average_total_payments : Option ℚ
  average_medicare_payments : Option ℚ
deriving Repr, DecidableEq

/-- `models.Rating`. -/
structure Rating where
  provider_id : String
  rating : Int
deriving Repr, DecidableEq

/-- The relational corpus read by both endpoints. -/
structure Corpus where
  providers : List Provider
  procedures : List Procedure
  ratings : List Rating
deriving Repr, DecidableEq

/-- A row of the joined projection selected by the endpoints.  The
`/providers` query also projects the two payment columns; the `/ask`
query omits them, which the claims never observe, so one row type
carries both. -/
structure Row where
  provider_id : String
  name : String
  city : Option String
  state : Option String
  zip_code : Option String
  ms_drg_definition : String
  average_covered_charges : Option ℚ
  average_total_payments : Option ℚ
  average_medicare_payments : Option ℚ
  rating : Option Int
  distance_km : ℚ
deriving Repr, DecidableEq

/-- `JOIN procedures ON procedures.provider_id = providers.provider_id`. -/
def ppPairs (c : Corpus) : List (Provider × Procedure) :=
  c.providers.flatMap fun p =>
    (c.procedures.filter (fun pr => pr.provider_id == p.provider_id)).map fun pr => (p, pr)

/-- `LEFT OUTER JOIN ratings ON ratings.provider_id = providers.provider_id`:
one `none` row when no rating matches, one row per matching rating
otherwise. -/
def ratingJoin (rs : List Rating) (pid : String) : List (Option Int) :=
  match (rs.filter (fun r => r.provider_id == pid)).map (fun r => some r.rating) with
  | [] => [none]
  | l => l

/-- The full three-way join underlying both row queries. -/
def joinRows (c : Corpus) : List (Provider × Procedure × Option Int) :=
  (ppPairs c).flatMap fun t => (ratingJoin c.ratings t.1.provider_id).map fun rt => (t.1, t.2, rt)

/-- SQL `value ILIKE '%' || pat || '%'`: case-insensitive substring. -/
def ilike (value pat : String) : Bool := strContains (pyLower value) (pyLower pat)

/-- The `%…%` infix of the `/ask` DRG pattern
(`f"%{params.drg_query or ''}%" if params.drg_query else "%"`):
a falsy `drg_query` (absent or empty) leaves the bare `%` wildcard. -/
def drgInfix (q : Option String) : String :=
  match q with
  | none => ""
  | some s => s

/-- The shared `WHERE` clause of both endpoints: DRG text match,
non-null coordinates, haversine distance within the radius.  Returns the
computed distance when the row qualifies. -/
def whereClause (dist : ℚ → ℚ → ℚ → ℚ → ℚ) (lat lon : ℚ) (radius : Int) (pat : String)
    (p : Provider) (pr : Procedure) : Option ℚ :=
  match p.latitude, p.longitude with
  | some plat, some plon =>
    if ilike pr.ms_drg_definition pat then
      let d := dist lat lon plat plon
      if d ≤ (radius : ℚ) then some d else none
    else none
  | _, _ => none

/-- The selected projection of one qualifying joined row. -/
def mkRow (p : Provider) (pr : Procedure) (rt : Option Int) (d : ℚ) : Row :=
  { provider_id := p.provider_id, name := p.name, city := p.city, state := p.state,
    zip_code := p.zip_code, ms_drg_definition := pr.ms_drg_definition,
    average_covered_charges := pr.average_covered_charges,
    average_total_payments := pr.average_total_payments,
    average_medicare_payments := pr.average_medicare_payments,
    rating := rt, distance_km := d }

/-- The filtered, joined row set shared by `/providers` and the row
branches of `/ask` (before `ORDER BY` / `LIMIT`). -/
def baseRows (dist : ℚ → ℚ → ℚ → ℚ → ℚ) (lat lon : ℚ) (radius : Int) (pat : String)
    (c : Corpus) : List Row :=
  (joinRows c).filterMap fun t =>
    (whereClause dist lat lon radius pat t.1 t.2.1).map (mkRow t.1 t.2.1 t.2.2)

/-! ## `ORDER BY` comparators

SQL leaves the relative order of tied rows unspecified, so any sort
implementing the key is a faithful model; `List.insertionSort` is used.
`/ask` orders with explicit `nullslast()`; `/providers` uses plain
`asc()`, whose PostgreSQL default is likewise nulls-last. -/

/-- `average_covered_charges ASC NULLS LAST` on the nullable value. -/
def optRatAscLe (a b : Option ℚ) : Bool :=
  match a, b with
  | none, none => true
  | none, some _ => false
  | some _, none => true
  | some x, some y => decide (x ≤ y)

/-- `rating DESC NULLS LAST` on the nullable value. -/
def optIntDescLe (a b : Option Int) : Bool :=
  match a, b with
  | none, none => true
  | none, some _ => false
  | some _, none => true
  | some x, some y => decide (y ≤ x)

/-- Row comparator for the cheapest/default/`/providers` ordering. -/
def chargesAscLe (a b : Row) : Bool :=
  optRatAscLe a.average_covered_charges b.average_covered_charges

/-- Row comparator for the `best_rated` ordering:
`rating DESC NULLS LAST, average_covered_charges ASC NULLS LAST`. -/
def bestRatedLe (a b : Row) : Bool :=
  if a.rating == b.rating then chargesAscLe a b else optIntDescLe a.rating b.rating

/-! ## The deduplication loop of the `best_rated` branch -/

/-- The `for r in rows` loop of the `best_rated` branch: skip providers
already in `seen`, append the row otherwise, and break as soon as
`len(unique_rows) >= top_k` (note the appended row is kept even when
`top_k <= 0`). `cnt` is the current `len(unique_rows)`. -/
def dedupTake (k : Int) : List String → Nat → List Row → List Row
  | _, _, [] => []
  | seen, cnt, r :: rs =>
    if seen.contains r.provider_id then dedupTake k seen cnt rs
    else if (cnt : Int) + 1 ≥ k then [r]
    else r :: dedupTake k (r.provider_id :: seen) (cnt + 1) rs

/-! ## Answer formatting (Python `f"{x:,.0f}"` on exact values) -/

/-- Rounding of `{:,.0f}`: round half to even. -/
def roundHalfToEven (q : ℚ) : Int :=
  let n := Rat.floor q
  let frac := q - (n : ℚ)
  if frac < 1/2 then n
  else if (1/2 : ℚ) < frac then n + 1
  else if n % 2 = 0 then n else n + 1

/-- Group the reversed digit list into blocks of three. -/
def chunk3 : List Char → List (List Char)
  | [] => []
  | a :: b :: c :: rest => [a, b, c] :: chunk3 rest
  | l => [l]

/-- Decimal rendering of a natural number with `,` thousands separators. -/
def commaGroup (n : Nat) : String :=
  String.intercalate ","
    (((chunk3 (toString n).toList.reverse).map (fun g => String.mk g.reverse)).reverse)

/-- `f"{q:,.0f}"` for an exact numeric value. -/
def fmtMoney (q : ℚ) : String :=
  let r := roundHalfToEven q
  (if r < 0 then "-" else "") ++ commaGroup r.natAbs

/-! ## `/ask` branch logic (`main.ask`) -/

/-- `AVG(average_covered_charges)`: SQL `NULL` values are excluded from
the aggregate; the aggregate is `NULL` when no non-null value exists. -/
def sqlAvg (l : List (Option ℚ)) : Option ℚ :=
  let vs := l.filterMap id
  if vs.isEmpty then none else some (vs.sum / (vs.length : ℚ))

/-- The covered-charges column of the rows matched by the
`average_cost` statement (which joins providers and procedures only —
no rating join — under the shared `WHERE` clause). -/
def avgCharges (dist : ℚ → ℚ → ℚ → ℚ → ℚ) (lat lon : ℚ) (radius : Int) (pat : String)
    (c : Corpus) : List (Option ℚ) :=
  (ppPairs c).filterMap fun t =>
    (whereClause dist lat lon radius pat t.1 t.2).map fun _ => t.2.average_covered_charges

/-- The `(AVG(average_covered_charges), COUNT(*))` aggregate row of the
`average_cost` branch. -/
def averageAggregate (dist : ℚ → ℚ → ℚ → ℚ → ℚ) (lat lon : ℚ) (radius : Int) (pat : String)
    (c : Corpus) : Option ℚ × Nat :=
  (sqlAvg (avgCharges dist lat lon radius pat c), (avgCharges dist lat lon radius pat c).length)

/-- Rendered answer of the `average_cost` branch. -/
def averageAnswer (dist : ℚ → ℚ → ℚ → ℚ → ℚ) (lat lon : ℚ) (radius : Int) (pat : String)
    (c : Corpus) : String :=
  match averageAggregate dist lat lon radius pat c with
  | (none, _) => "No matching hospitals found to compute an average."
  | (some a, n) =>
    "Average covered charges: $" ++ fmtMoney a ++ " across " ++ toString n ++ " hospitals."

/-- The `best_rated` candidate rows: the base query ordered by
`rating DESC NULLS LAST, average_covered_charges ASC NULLS LAST`,
`LIMIT 500`. -/
def bestRatedCandidates (dist : ℚ → ℚ → ℚ → ℚ → ℚ) (lat lon : ℚ) (radius : Int)
    (pat : String) (c : Corpus) : List Row :=
  (List.insertionSort (fun a b => bestRatedLe a b = true)
    (baseRows dist lat lon radius pat c)).take 500

/-- The deduplicated rows of the `best_rated` branch. -/
def bestRatedUnique (k : Int) (dist : ℚ → ℚ → ℚ → ℚ → ℚ) (lat lon : ℚ) (radius : Int)
    (pat : String) (c : Corpus) : List Row :=
  dedupTake k [] 0 (bestRatedCandidates dist lat lon radius pat c)

/-- `f"{r.name} (rating: {r.rating if r.rating is not None else 'N/A'})"`. -/
def fmtRated (r : Row) : String :=
  r.name ++ " (rating: " ++ (match r.rating with | some n => toString n | none => "N/A") ++ ")"

/-- Rendered answer of the `best_rated` branch. -/
def bestRatedAnswer (k : Int) (dist : ℚ → ℚ → ℚ → ℚ → ℚ) (lat lon : ℚ) (radius : Int)
    (pat : String) (c : Corpus) : String :=
  if (bestRatedCandidates dist lat lon radius pat c).isEmpty then
    "No matching hospitals found within the radius."
  else
    String.intercalate "; " ((bestRatedUnique k dist lat lon radius pat c).map fmtRated)

/-- Rows of the cheapest/default branch: base query ordered by
`average_covered_charges ASC NULLS LAST`, `LIMIT top_k`. -/
def cheapestTake (k : Int) (dist : ℚ → ℚ → ℚ → ℚ → ℚ) (lat lon : ℚ) (radius : Int)
    (pat : String) (c : Corpus) : List Row :=
  (List.insertionSort (fun a b => chargesAscLe a b = true)
    (baseRows dist lat lon radius pat c)).take k.toNat

/-- Rows of `/providers`: base query ordered by
`average_covered_charges ASC`, `LIMIT 100`. -/
def providersSearch (dist : ℚ → ℚ → ℚ → ℚ → ℚ) (lat lon : ℚ) (radius : Int)
    (pat : String) (c : Corpus) : List Row :=
  (List.insertionSort (fun a b => chargesAscLe a b = true)
    (baseRows dist lat lon radius pat c)).take 100

/-! ## The `/ask` endpoint -/

/-- Failures the endpoint can produce: `HTTPException(status, detail)`,
the `TypeError` of `float(None)`, and the re-raised extraction failure. -/
inductive AskErr where
  | http (status : Nat) (detail : String)
  | typeErr
  | llm
deriving Repr, DecidableEq

/-- Request-scoped collaborators of `/ask`: LLM configuration, the
pgeocode lookup (`none` models a missing record or NaN latitude), the
database haversine, and the stored corpus. -/
structure Env where
  llm : LLMConfig
  nomi : String → Option (ℚ × ℚ)
  dist : ℚ → ℚ → ℚ → ℚ → ℚ
  corpus : Corpus

/-- `main.geocode_zip` on the lookup oracle. -/
def geocode_zip (nomi : String → Option (ℚ × ℚ)) (z : String) : Except AskErr (ℚ × ℚ) :=
  match nomi z with
  | none => .error (.http 400 "Invalid or unsupported ZIP code for geocoding")
  | some ll => .ok ll

/-- `radius_km = params.radius_km or 40`: `None` and `0` are falsy. -/
def effectiveRadius (r : Option Int) : Int := pyOrInt r 40

/-- Python truthiness of `params.zip_code`. -/
def pyTruthyStr (x : Option String) : Bool :=
  match x with
  | none => false
  | some s => !(s == "")

/-- The body of `main.ask` after parameter extraction and geocoding:
intent dispatch over the three query branches.  In the default branch,
`f"...${float(best.average_covered_charges):,.0f}..."` raises `TypeError`
when the first row's covered charges are `NULL`. -/
def runQuestion (env : Env) (params : NLParams) (lat lon : ℚ) : Except AskErr String :=
  let radius := effectiveRadius params.radius_km
  let pat := drgInfix params.drg_query
  if params.intent == "best_rated" then
    .ok (bestRatedAnswer params.top_k env.dist lat lon radius pat env.corpus)
  else if params.intent == "average_cost" then
    .ok (averageAnswer env.dist lat lon radius pat env.corpus)
  else
    match cheapestTake params.top_k env.dist lat lon radius pat env.corpus with
    | [] => .ok "No matching hospitals found within the radius."
    | best :: _ =>
      match best.average_covered_charges with
      | none => .error .typeErr
      | some v =>
        .ok ("Based on data, " ++ best.name ++ " at $" ++ fmtMoney v ++
          " average covered charges.")

/-- `main.ask`: strip, scope-gate, extract, require a truthy ZIP,
geocode, dispatch. -/
def ask (env : Env) (question : String) : Except AskErr String :=
  let q := pyStrip question
  if is_scope_relevant q = false then
    .ok ("I can only help with hospital pricing and quality information. " ++
      "Please ask about medical procedures, costs, or hospital ratings.")
  else
    match extract_params_with_openai env.llm q with
    | .error _ => .error .llm
    | .ok params =>
      if pyTruthyStr params.zip_code = false then
        .error (.http 400 "Please include a 5-digit ZIP code in your question.")
      else
        match geocode_zip env.nomi (params.zip_code.getD "") with
        | .error e => .error e
        | .ok ll => runQuestion env params ll.1 ll.2

/-! ## Comparator lemmas -/

theorem optRatAscLe_trans {a b c : Option ℚ} (h1 : optRatAscLe a b = true)
    (h2 : optRatAscLe b c = true) : optRatAscLe a c = true := by
  cases a <;> cases b <;> cases c <;> simp_all [optRatAscLe]
  exact le_trans h1 h2

theorem optRatAscLe_total (a b : Option ℚ) :
    optRatAscLe a b = true ∨ optRatAscLe b a = true := by
  cases a <;> cases b <;> simp_all [optRatAscLe]
  exact le_total _ _

theorem optIntDescLe_trans {a b c : Option Int} (h1 : optIntDescLe a b = true)
    (h2 : optIntDescLe b c = true) : optIntDescLe a c = true := by
  cases a <;> cases b <;> cases c <;> simp_all [optIntDescLe]
  omega

theorem optIntDescLe_total (a b : Option Int) :
    optIntDescLe a b = true ∨ optIntDescLe b a = true := by
  cases a <;> cases b <;> simp_all [optIntDescLe]
  omega

theorem optIntDescLe_antisymm {a b : Option Int} (h1 : optIntDescLe a b = true)
    (h2 : optIntDescLe b a = true) : a = b := by
  cases a <;> cases b <;> simp_all [optIntDescLe]
  omega

theorem bestRatedLe_eq (a b : Row) :
    bestRatedLe a b =
      if a.rating = b.rating then chargesAscLe a b else optIntDescLe a.rating b.rating := by
  simp [bestRatedLe]

theorem bestRatedLe_trans {a b c : Row} (h1 : bestRatedLe a b = true)
    (h2 : bestRatedLe b c = true) : bestRatedLe a c = true := by
  rw [bestRatedLe_eq] at h1 h2 ⊢
  by_cases hab : a.rating = b.rating <;> by_cases hbc : b.rating = c.rating
  · rw [if_pos hab] at h1
    rw [if_pos hbc] at h2
    rw [if_pos (hab.trans hbc)]
    exact optRatAscLe_trans h1 h2
  · rw [if_pos hab] at h1
    rw [if_neg hbc] at h2
    rw [if_neg (fun h => hbc (hab.symm.trans h)), hab]
    exact h2
  · rw [if_neg hab] at h1
    rw [if_pos hbc] at h2
    rw [if_neg (fun h => hab (h.trans hbc.symm)), ← hbc]
    exact h1
  · rw [if_neg hab] at h1
    rw [if_neg hbc] at h2
    by_cases hac : a.rating = c.rating
    · exact absurd (optIntDescLe_antisymm h1 (hac ▸ h2)) hab
    · rw [if_neg hac]
      exact optIntDescLe_trans h1 h2

theorem bestRatedLe_total (a b : Row) :
    bestRatedLe a b = true ∨ bestRatedLe b a = true := by
  rw [bestRatedLe_eq, bestRatedLe_eq]
  by_cases hab : a.rating = b.rating
  · rw [if_pos hab, if_pos hab.symm]
    exact optRatAscLe_total _ _
  · rw [if_neg hab, if_neg (Ne.symm hab)]
    exact optIntDescLe_total _ _

instance : IsTrans Row (fun a b => bestRatedLe a b = true) := ⟨fun _ _ _ => bestRatedLe_trans⟩

instance : IsTotal Row (fun a b => bestRatedLe a b = true) := ⟨bestRatedLe_total⟩

/-! ## Lemmas about the deduplication loop -/

theorem dedupTake_sublist (k : Int) :
    ∀ (seen : List String) (cnt : Nat) (l : List Row), List.Sublist (dedupTake k seen cnt l) l := by
  intro seen cnt l
  induction l generalizing seen cnt with
  | nil => simp [dedupTake]
  | cons r rs ih =>
    rw [dedupTake]
    split
    · exact (ih seen cnt).cons r
    · split
      · exact (List.nil_sublist rs).cons₂ r
      · exact (ih _ _).cons₂ r

theorem dedupTake_ids_nodup (k : Int) :
    ∀ (seen : List String) (cnt : Nat) (l : List Row),
      ((dedupTake k seen cnt l).map Row.provider_id).Nodup ∧
        ∀ x ∈ (dedupTake k seen cnt l).map Row.provider_id, ¬ x ∈ seen := by
  intro seen cnt l
  induction l generalizing seen cnt with
  | nil => simp [dedupTake]
  | cons r rs ih =>
    rw [dedupTake]
    split
    · exact ih seen cnt
    · rename_i hseen
      split
      · refine ⟨by simp, ?_⟩
        intro x hx
        simp only [List.map_cons, List.map_nil, List.mem_singleton] at hx
        subst hx
        simpa using hseen
      · obtain ⟨ihn, ihs⟩ := ih (r.provider_id :: seen) (cnt + 1)
        refine ⟨?_, ?_⟩
        · simp only [List.map_cons, List.nodup_cons]
          exact ⟨fun hx => ihs _ hx (List.mem_cons_self _ _), ihn⟩
        · intro x hx
          simp only [List.map_cons, List.mem_cons] at hx
          rcases hx with rfl | hx
          · simpa using hseen
          · exact fun hxs => ihs _ hx (List.mem_cons_of_mem _ hxs)

theorem dedupTake_length (k : Int) :
    ∀ (seen : List String) (cnt : Nat) (l : List Row), (cnt : Int) < k →
      ((dedupTake k seen cnt l).length : Int) + cnt ≤ k := by
  intro seen cnt l
  induction l generalizing seen cnt with
  | nil => intro h; simp [dedupTake]; omega
  | cons r rs ih =>
    intro h
    rw [dedupTake]
    split
    · exact ih seen cnt h
    · split
      · rename_i hbreak
        simp only [List.length_singleton]
        omega
      · rename_i hbreak
        have := ih (r.provider_id :: seen) (cnt + 1) (by push_cast; omega)
        simp only [List.length_cons]
        push_cast at this ⊢
        omega

/-! ## Provenance of result rows -/

/-- `r` is the projection of some stored provider that has both
coordinates. -/
def hasCoordProvider (c : Corpus) (r : Row) : Prop :=
  ∃ p ∈ c.providers, p.provider_id = r.provider_id ∧
    p.latitude.isSome = true ∧ p.longitude.isSome = true

theorem mem_joinRows {c : Corpus} {x : Provider × Procedure × Option Int}
    (h : x ∈ joinRows c) : x.1 ∈ c.providers := by
  simp only [joinRows, List.mem_flatMap, List.mem_map] at h
  obtain ⟨t, ht, rt, hrt, rfl⟩ := h
  simp only [ppPairs, List.mem_flatMap, List.mem_map] at ht
  obtain ⟨p, hp, pr, hpr, rfl⟩ := ht
  exact hp

theorem baseRows_coord {dist : ℚ → ℚ → ℚ → ℚ → ℚ} {lat lon : ℚ} {radius : Int}
    {pat : String} {c : Corpus} {r : Row}
    (h : r ∈ baseRows dist lat lon radius pat c) : hasCoordProvider c r := by
  simp only [baseRows, List.mem_filterMap] at h
  obtain ⟨t, hmem, hsel⟩ := h
  have hp := mem_joinRows hmem
  rw [Option.map_eq_some'] at hsel
  obtain ⟨d, hw, hrow⟩ := hsel
  have hid : r.provider_id = t.1.provider_id := by rw [← hrow]; rfl
  refine ⟨t.1, hp, hid.symm, ?_, ?_⟩
  · cases hla : t.1.latitude with
    | some _ => rfl
    | none =>
      exfalso
      cases hlo : t.1.longitude <;> simp [whereClause, hla, hlo] at hw
  · cases hlo : t.1.longitude with
    | some _ => rfl
    | none =>
      exfalso
      cases hla : t.1.latitude <;> simp [whereClause, hla, hlo] at hw

theorem mem_providersSearch {dist : ℚ → ℚ → ℚ → ℚ → ℚ} {lat lon : ℚ} {radius : Int}
    {pat : String} {c : Corpus} {r : Row}
    (h : r ∈ providersSearch dist lat lon radius pat c) :
    r ∈ baseRows dist lat lon radius pat c := by
  have := (List.take_sublist _ _).subset h
  exact (List.perm_insertionSort _ _).subset this

theorem mem_cheapestTake {k : Int} {dist : ℚ → ℚ → ℚ → ℚ → ℚ} {lat lon : ℚ} {radius : Int}
    {pat : String} {c : Corpus} {r : Row}
    (h : r ∈ cheapestTake k dist lat lon radius pat c) :
    r ∈ baseRows dist lat lon radius pat c := by
  have := (List.take_sublist _ _).subset h
  exact (List.perm_insertionSort _ _).subset this

theorem mem_bestRatedUnique {k : Int} {dist : ℚ → ℚ → ℚ → ℚ → ℚ} {lat lon : ℚ} {radius : Int}
    {pat : String} {c : Corpus} {r : Row}
    (h : r ∈ bestRatedUnique k dist lat lon radius pat c) :
    r ∈ baseRows dist lat lon radius pat c := by
  have h1 := (dedupTake_sublist k [] 0 _).subset h
  have h2 := (List.take_sublist _ _).subset h1
  exact (List.perm_insertionSort _ _).subset h2

/-! ## Concrete fixtures for witnesses and counterexamples -/

/-- A haversine oracle placing every candidate at distance 0. -/
def flatDist : ℚ → ℚ → ℚ → ℚ → ℚ := fun _ _ _ _ => 0

def demoProvider1 : Provider :=
  ⟨"P1", "General Hospital", none, none, none, some 0, some 0⟩

def demoProvider2 : Provider :=
  ⟨"P2", "Mercy Medical", none, none, none, some 0, some 0⟩

/-- One provider with procedures whose covered charges are 100, 200, NULL. -/
def demoCorpusAvg : Corpus :=
  ⟨[demoProvider1],
   [⟨"P1", "DRG A", some 100, none, none⟩, ⟨"P1", "DRG B", some 200, none, none⟩,
    ⟨"P1", "DRG C", none, none, none⟩],
   []⟩

/-- Two providers (one rated), three procedures. -/
def demoCorpusRated : Corpus :=
  ⟨[demoProvider1, demoProvider2],
   [⟨"P1", "DRG A", some 100, none, none⟩, ⟨"P1", "DRG B", some 50, none, none⟩,
    ⟨"P2", "DRG A", some 70, none, none⟩],
   [⟨"P1", 4⟩]⟩

/-- One provider whose only procedure has NULL covered charges. -/
def demoCorpusNull : Corpus :=
  ⟨[demoProvider1], [⟨"P1", "DRG A", none, none, none⟩], []⟩

/-- Unconfigured-LLM environment over a given corpus, geocoding every ZIP
to the origin. -/
def demoEnv (c : Corpus) : Env :=
  ⟨none, fun _ => some (0, 0), flatDist, c⟩

/-- A configured completion service whose every call attempt raises. -/
def failingService : Nat → Except Unit LLMData := fun _ => .error ()

/-- The cheapest matching row of `demoCorpusRated` under `flatDist`. -/
def demoRow1 : Row := mkRow demoProvider1 ⟨"P1", "DRG B", some 50, none, none⟩ (some 4) 0

end Hospital

deriving instance DecidableEq for Except

namespace Hospital

section ClaimTheorems

attribute [local semireducible] Rat.add Rat.mul Rat.inv Rat.sub

/-- C1 (counterexample): with the completion service configured and every
call attempt failing, `extract_params_with_openai` propagates the failure
to its caller instead of resolving to a `StructuredQueryParams` value —
the retry decorator re-raises after its third attempt. -/
theorem extract_retry_exhaustion_cex :
    extract_params_with_openai (some failingService)
      "Who is cheapest for DRG 470 near 10001?" = .error () := rfl

/-- C1 (amended): `extract_params_with_openai` resolves to a value for
every question when the completion service is not configured (delegating
to the fallback parser), and when the service is configured a successful
first attempt resolves to the validated extraction; but when every call
attempt fails, the failure propagates to the caller after three attempts. -/
theorem extract_params_totality_amended (q : String) (svc : Nat → Except Unit LLMData) :
    (extract_params_with_openai none q = .ok (_fallback_parse q)) ∧
    ((∀ n, svc n = .error ()) → extract_params_with_openai (some svc) q = .error ()) ∧
    (∀ d, svc 0 = .ok d → extract_params_with_openai (some svc) q = .ok (parseLLMData d)) := by
  refine ⟨rfl, ?_, ?_⟩
  · intro h
    simp [extract_params_with_openai, extractAttempt, h 0, h 1, h 2, Except.map]
  · intro d h
    simp [extract_params_with_openai, extractAttempt, h, Except.map]

theorem extract_params_totality_amended_witness :
    extract_params_with_openai (some failingService) "hospital" = .error () :=
  (extract_params_totality_amended "hospital" failingService).2.1 (fun _ => rfl)

/-- C2 (counterexample): on matching rows with covered charges
{100, 200, NULL}, the `average_cost` aggregate reports mean 150 but count
3 — the `COUNT(*)` column counts every matching row, including the
NULL-charge row, so the reported count is not the count 2 of rows with
non-null covered charges that the claim states. -/
theorem average_count_cex :
    avgCharges flatDist 0 0 40 "" demoCorpusAvg = [some 100, some 200, none] ∧
    averageAggregate flatDist 0 0 40 "" demoCorpusAvg = (some 150, 3) ∧
    averageAnswer flatDist 0 0 40 "" demoCorpusAvg =
      "Average covered charges: $150 across 3 hospitals." ∧
    ((avgCharges flatDist 0 0 40 "" demoCorpusAvg).filterMap id).length = 2 ∧
    (3 : Nat) ≠ 2 :=
  ⟨by decide, by decide, by decide, by decide, by decide⟩

/-- C2 (amended): in the `average_cost` branch the reported mean excludes
rows with NULL covered charges (a NULL row never shifts the aggregate,
which equals the sum of the non-null values over their number), while the
reported count is the count of ALL matching rows including NULL-charge
ones: on matching charges {100, 200, NULL} the branch reports mean 150
over count 3. -/
theorem average_aggregate_amended (dist : ℚ → ℚ → ℚ → ℚ → ℚ) (lat lon : ℚ)
    (radius : Int) (pat : String) (c : Corpus) (l : List (Option ℚ)) :
    (sqlAvg (none :: l) = sqlAvg l) ∧
    (l.filterMap id ≠ [] →
      sqlAvg l = some ((l.filterMap id).sum / ((l.filterMap id).length : ℚ))) ∧
    ((averageAggregate dist lat lon radius pat c).2 =
      (avgCharges dist lat lon radius pat c).length) ∧
    averageAggregate flatDist 0 0 40 "" demoCorpusAvg = (some 150, 3) := by
  refine ⟨by simp [sqlAvg], ?_, rfl, by decide⟩
  intro h
  simp [sqlAvg, List.isEmpty_iff, h]

theorem average_aggregate_amended_witness :
    sqlAvg [some (100 : ℚ), some 200, none] = some 150 :=
  ((average_aggregate_amended flatDist 0 0 40 "" demoCorpusAvg
    [some (100 : ℚ), some 200, none]).2.1 (by decide)).trans (by decide)

/-- C3: for every corpus and `best_rated` query, the deduplicated rows
the answer is built from are a sublist of the candidate rows ordered by
rating descending (unrated last) then price ascending (nulls last); they
are pairwise in that order, no provider identity occurs twice, and, for a
positive `top_k`, at most `top_k` rows remain. -/
theorem best_rated_dedup_cap_ordered (k : Int) (dist : ℚ → ℚ → ℚ → ℚ → ℚ)
    (lat lon : ℚ) (radius : Int) (pat : String) (c : Corpus) :
    ((bestRatedUnique k dist lat lon radius pat c).map Row.provider_id).Nodup ∧
    List.Sublist (bestRatedUnique k dist lat lon radius pat c)
      (bestRatedCandidates dist lat lon radius pat c) ∧
    (bestRatedUnique k dist lat lon radius pat c).Pairwise
      (fun a b => bestRatedLe a b = true) ∧
    (1 ≤ k → ((bestRatedUnique k dist lat lon radius pat c).length : Int) ≤ k) := by
  refine ⟨(dedupTake_ids_nodup k [] 0 _).1, dedupTake_sublist k [] 0 _, ?_, ?_⟩
  · have hsorted := List.sorted_insertionSort (fun a b => bestRatedLe a b = true)
      (baseRows dist lat lon radius pat c)
    have hcand := hsorted.sublist (List.take_sublist 500 _)
    exact hcand.sublist (dedupTake_sublist k [] 0 _)
  · intro hk
    have := dedupTake_length k [] 0 (bestRatedCandidates dist lat lon radius pat c)
      (by exact_mod_cast hk)
    simpa using this

theorem best_rated_dedup_cap_ordered_witness :
    ((bestRatedUnique 3 flatDist 0 0 40 "" demoCorpusRated).map Row.provider_id).Nodup ∧
    ((bestRatedUnique 3 flatDist 0 0 40 "" demoCorpusRated).length : Int) ≤ 3 :=
  ⟨(best_rated_dedup_cap_ordered 3 flatDist 0 0 40 "" demoCorpusRated).1,
   (best_rated_dedup_cap_ordered 3 flatDist 0 0 40 "" demoCorpusRated).2.2.2 (by decide)⟩

/-- C4: the fallback parser's radius extraction: a kilometre phrase wins
whenever present; otherwise a miles phrase with value `m` converts by
`m * 1609 / 1000` (integer floor division, so "within 25 miles" yields
40); with neither phrase the radius is absent. -/
theorem fallback_radius_conversion :
    (∀ (text : String) (k : Int), findKm text = some k →
      (_fallback_parse text).radius_km = some k) ∧
    (∀ (text : String) (m : Int), findKm text = none → findMiles text = some m →
      (_fallback_parse text).radius_km = some (m * 1609 / 1000)) ∧
    (∀ text : String, findKm text = none → findMiles text = none →
      (_fallback_parse text).radius_km = none) ∧
    (_fallback_parse "within 25 miles").radius_km = some 40 ∧
    (_fallback_parse "within 10 km").radius_km = some 10 ∧
    (_fallback_parse "within 25 miles or 10 km").radius_km = some 10 := by
  refine ⟨?_, ?_, ?_, by decide, by decide, by decide⟩
  · intro text k h
    simp [_fallback_parse, h]
  · intro text m hk hm
    simp [_fallback_parse, hk, hm]
  · intro text hk hm
    simp [_fallback_parse, hk, hm]

theorem fallback_radius_conversion_witness :
    (_fallback_parse "within 25 miles").radius_km = some (25 * 1609 / 1000) :=
  fallback_radius_conversion.2.1 "within 25 miles" 25 (by decide) (by decide)

/-- C5: the fallback parser's intent classification follows the keyword
precedence cost terms → quality terms → "average" → default `cheapest`;
in particular any text containing "cheapest" (hence the cost keyword
"cheap") resolves to `cheapest` even when quality keywords also occur. -/
theorem fallback_intent_precedence :
    (∀ text : String, hasCostKeyword text = true →
      (_fallback_parse text).intent = "cheapest") ∧
    (∀ text : String, hasCostKeyword text = false → hasQualityKeyword text = true →
      (_fallback_parse text).intent = "best_rated") ∧
    (∀ text : String, hasCostKeyword text = false → hasQualityKeyword text = false →
      strContains (pyLower text) "average" = true →
      (_fallback_parse text).intent = "average_cost") ∧
    (∀ text : String, hasCostKeyword text = false → hasQualityKeyword text = false →
      strContains (pyLower text) "average" = false →
      (_fallback_parse text).intent = "cheapest") ∧
    (∀ text : String, strContains (pyLower text) "cheapest" = true →
      (_fallback_parse text).intent = "cheapest") := by
  have hcost : ∀ text : String, hasCostKeyword text = true →
      (_fallback_parse text).intent = "cheapest" := by
    intro text h
    simp [_fallback_parse, h]
  refine ⟨hcost, ?_, ?_, ?_, ?_⟩
  · intro text h1 h2
    simp [_fallback_parse, h1, h2]
  · intro text h1 h2 h3
    simp [_fallback_parse, h1, h2, h3]
  · intro text h1 h2 h3
    simp [_fallback_parse, h1, h2, h3]
  · intro text h
    refine hcost text ?_
    have hinf : ("cheapest".toList : List Char) <:+: (pyLower text).toList :=
      (strContains_iff _ _).mp h
    have hsub : ("cheap".toList : List Char) <:+: (pyLower text).toList :=
      List.IsInfix.trans (by decide : ("cheap".toList : List Char) <:+: "cheapest".toList) hinf
    simp only [hasCostKeyword, List.any_eq_true]
    exact ⟨"cheap", by decide, (strContains_iff _ _).mpr hsub⟩

theorem fallback_intent_precedence_witness :
    (_fallback_parse "cheapest and best rated hospital near 10001").intent = "cheapest" :=
  fallback_intent_precedence.2.2.2.2 "cheapest and best rated hospital near 10001" (by decide)

/-- C6: every result row of the structured listing and of the `best_rated`
and cheapest/default branches of the question endpoint is the projection
of a stored provider whose latitude and longitude are both non-null — a
provider lacking coordinates is excluded by the shared `WHERE` clause for
every radius value. -/
theorem results_have_coordinates (k : Int) (dist : ℚ → ℚ → ℚ → ℚ → ℚ) (lat lon : ℚ)
    (radius : Int) (pat : String) (c : Corpus) (r : Row) :
    (r ∈ providersSearch dist lat lon radius pat c → hasCoordProvider c r) ∧
    (r ∈ bestRatedUnique k dist lat lon radius pat c → hasCoordProvider c r) ∧
    (r ∈ cheapestTake k dist lat lon radius pat c → hasCoordProvider c r) :=
  ⟨fun h => baseRows_coord (mem_providersSearch h),
   fun h => baseRows_coord (mem_bestRatedUnique h),
   fun h => baseRows_coord (mem_cheapestTake h)⟩

theorem results_have_coordinates_witness : hasCoordProvider demoCorpusRated demoRow1 :=
  (results_have_coordinates 3 flatDist 0 0 40 "" demoCorpusRated demoRow1).1 (by decide)

/-- C7: an in-scope question from which extraction yields no (truthy)
postal code is rejected with the fixed HTTP 400 missing-ZIP error, and the
outcome is the same for every geocoder, distance oracle and corpus — the
rejection happens before geocoding or any storage query. -/
theorem missing_zip_rejected_before_geocoding (env : Env) (q : String) (p : NLParams)
    (hscope : is_scope_relevant (pyStrip q) = true)
    (hex : extract_params_with_openai env.llm (pyStrip q) = .ok p)
    (hzip : pyTruthyStr p.zip_code = false) :
    ask env q = .error (.http 400 "Please include a 5-digit ZIP code in your question.") ∧
    ∀ (nomi2 : String → Option (ℚ × ℚ)) (dist2 : ℚ → ℚ → ℚ → ℚ → ℚ) (c2 : Corpus),
      ask { env with nomi := nomi2, dist := dist2, corpus := c2 } q = ask env q := by
  constructor
  · simp [ask, hscope, hex, hzip]
  · intro nomi2 dist2 c2
    simp [ask, hscope, hex, hzip]

theorem missing_zip_rejected_witness :
    ask (demoEnv demoCorpusAvg) "hospital cost" =
      .error (.http 400 "Please include a 5-digit ZIP code in your question.") :=
  (missing_zip_rejected_before_geocoding (demoEnv demoCorpusAvg) "hospital cost"
    (_fallback_parse (pyStrip "hospital cost")) (by decide) rfl (by decide)).1

/-- C8: `is_scope_relevant` returns true exactly when the lowercased
string contains a term of the fixed domain vocabulary as a substring; it
is a pure total function, and the empty string is out of scope. -/
theorem scope_gate_keyword_iff :
    (∀ s : String, is_scope_relevant s = true ↔
      ∃ kw ∈ scopeKeywords, kw.toList <:+: (pyLower s).toList) ∧
    is_scope_relevant "" = false := by
  constructor
  · intro s
    simp only [is_scope_relevant, List.any_eq_true, strContains_iff]
  · decide

theorem scope_gate_keyword_iff_witness : is_scope_relevant "find a hospital" = true :=
  (scope_gate_keyword_iff.1 "find a hospital").mpr ⟨"hospital", by decide, by decide⟩

/-- C9: in the cheapest/default branch, when the matching row set is
non-empty but every row's covered charges are NULL, the endpoint raises
(`float(None)` while formatting the first row) instead of returning an
answer or the no-match message. -/
theorem cheapest_null_charges_raises (env : Env) (p : NLParams) (lat lon : ℚ)
    (h1 : (p.intent == "best_rated") = false)
    (h2 : (p.intent == "average_cost") = false)
    (hne : cheapestTake p.top_k env.dist lat lon (effectiveRadius p.radius_km)
      (drgInfix p.drg_query) env.corpus ≠ [])
    (hnull : ∀ r ∈ cheapestTake p.top_k env.dist lat lon (effectiveRadius p.radius_km)
      (drgInfix p.drg_query) env.corpus, r.average_covered_charges = none) :
    runQuestion env p lat lon = .error .typeErr := by
  cases hrows : cheapestTake p.top_k env.dist lat lon (effectiveRadius p.radius_km)
      (drgInfix p.drg_query) env.corpus with
  | nil => exact absurd hrows hne
  | cons r rs =>
    have hr := hnull r (hrows ▸ List.mem_cons_self r rs)
    simp [runQuestion, h1, h2, hrows, hr]

theorem cheapest_null_charges_raises_witness :
    runQuestion (demoEnv demoCorpusNull) ⟨"cheapest", none, some "10001", none, 3⟩ 0 0 =
      .error .typeErr :=
  cheapest_null_charges_raises (demoEnv demoCorpusNull)
    ⟨"cheapest", none, some "10001", none, 3⟩ 0 0
    (by decide) (by decide) (by decide) (by decide)

/-- C10: an extracted radius of exactly 0 km is treated as absent —
`params.radius_km or 40` sees 0 as falsy — so the query runs exactly as
it would with no radius at all (the 40 km default). -/
theorem zero_radius_treated_as_absent (env : Env) (p : NLParams) (lat lon : ℚ)
    (h : p.radius_km = some 0) :
    runQuestion env p lat lon = runQuestion env { p with radius_km := none } lat lon := by
  simp [runQuestion, effectiveRadius, pyOrInt, h]

theorem zero_radius_treated_as_absent_witness :
    runQuestion (demoEnv demoCorpusAvg) ⟨"cheapest", none, some "10001", some 0, 3⟩ 0 0 =
      runQuestion (demoEnv demoCorpusAvg) ⟨"cheapest", none, some "10001", none, 3⟩ 0 0 :=
  zero_radius_treated_as_absent (demoEnv demoCorpusAvg)
    ⟨"cheapest", none, some "10001", some 0, 3⟩ 0 0 rfl

end ClaimTheorems

end Hospital
